import Mathlib

/-!
Verification of the TEE proof-request workflow implemented in
src/components/vana/hooks/useTeeProof.ts.

The hook is sequential RPC glue: it submits an on-chain transaction, waits
for one confirmation, resolves job and TEE metadata through contract reads,
assembles a JSON payload and POSTs it to the TEE executor.  We embed it as a
pure function over an environment `Env` that supplies the results of every
external call (wallet address, contract write, receipt wait, contract reads,
encryption parameters, nonce, HTTP fetch).  The run returns the result
(`Except Thrown ProofResult`, mirroring return/throw), a trace of the
externally observable calls it performed, and the final hook state
(isProcessing / error), with each trace entry recording the hook state at
the moment the call happened.
-/

/-- A JSON value, as produced by Response.json(). -/
inductive Json where
  | null
  | bool (b : Bool)
  | num (n : Int)
  | str (s : String)
  | arr (elems : List Json)
  | obj (fields : List (String × Json))
deriving Repr

mutual

/-- JSON.stringify on the `Json` model (string escaping elided). -/
def stringifyJson : Json → String
  | .null => "null"
  | .bool true => "true"
  | .bool false => "false"
  | .num n => toString n
  | .str s => "\"" ++ s ++ "\""
  | .arr elems => "[" ++ stringifyElems elems ++ "]"
  | .obj fields => "\x7b" ++ stringifyFields fields ++ "\x7d"

/-- Comma-separated serialization of array elements. -/
def stringifyElems : List Json → String
  | [] => ""
  | [x] => stringifyJson x
  | x :: y :: rest => stringifyJson x ++ "," ++ stringifyElems (y :: rest)

/-- Comma-separated serialization of object fields. -/
def stringifyFields : List (String × Json) → String
  | [] => ""
  | [(k, v)] => "\"" ++ k ++ "\":" ++ stringifyJson v
  | (k, v) :: y :: rest =>
      "\"" ++ k ++ "\":" ++ stringifyJson v ++ "," ++ stringifyFields (y :: rest)

end

/-- `containsSub s sub` holds when `sub` occurs contiguously inside `s`. -/
def containsSub (s sub : String) : Prop :=
  ∃ pre post, s = pre ++ sub ++ post

/-- A thrown JavaScript value: either an Error object carrying a message, or
any other value (the code distinguishes the two with instanceof Error). -/
inductive Thrown where
  | errObj (message : String)
  | other
deriving Repr, DecidableEq

/-- Result of the contract read jobs(jobId): the executor address assigned to
the job.  The TS type JobData; a falsy teeAddress is the empty string. -/
structure JobData where
  teeAddress : String
deriving Repr, DecidableEq

/-- Result of the contract read tees(address): the TS type TeeData. -/
structure TeeData where
  url : String
  publicKey : String
deriving Repr, DecidableEq

/-- The TS type JobDetails returned by getTeeDetails. -/
structure JobDetails where
  teeUrl : String
  teePublicKey : String
  teeAddress : Option String
deriving Repr, DecidableEq

/-- Result of getEncryptionParameters(), treated as opaque by the hook. -/
structure EncParams where
  ivHex : String
  ephemeralKeyHex : String
deriving Repr, DecidableEq

/-- Transaction receipt from waitForTransactionReceipt. -/
structure Receipt where
  transactionHash : String
deriving Repr, DecidableEq

/-- An HTTP response: numeric status plus the already-parsed JSON body. -/
structure HttpResponse where
  status : Nat
  body : Json
deriving Repr

/-- The fetch Response.ok flag: status in the range 200-299. -/
def responseOk (r : HttpResponse) : Bool :=
  200 ≤ r.status && r.status < 300

/-- One entry of validate_permissions in the request body. -/
structure PermissionEntry where
  address : String
  public_key : String
  iv : String
  ephemeral_key : String
deriving Repr, DecidableEq

/-- The TS interface ProofRequestBody.  The two trailing key fields are
optional in the interface, hence Option with default none. -/
structure ProofRequestBody where
  job_id : Nat
  file_id : Nat
  nonce : String
  proof_url : String
  encryption_seed : String
  user_email : String
  validate_permissions : List PermissionEntry
  encrypted_encryption_key : Option String := none
  encryption_key : Option String := none
deriving Repr, DecidableEq

/-- The object returned by requestContributionProof on success. -/
structure ProofResult where
  fileId : Nat
  jobId : Nat
  proofData : Json
  txHash : String
deriving Repr

/-- Environment supplying the results of every external collaborator call
made by the hook during one invocation. -/
structure Env where
  /-- useAccount().address: the connected wallet address, if any. -/
  address : Option String
  /-- writeContractAsync for requestContributionProof: tx hash or rejection. -/
  writeContract : Except Thrown String
  /-- waitForTransactionReceipt for a given hash. -/
  waitForReceipt : String → Except Thrown Receipt
  /-- Contract read fileJobIds(fileId). -/
  fileJobIds : Nat → Except Thrown (List Nat)
  /-- Contract read jobs(jobId); none models a missing/null record. -/
  jobs : Nat → Except Thrown (Option JobData)
  /-- Contract read tees(teeAddress); none models a missing/null record. -/
  tees : String → Except Thrown (Option TeeData)
  /-- Contract read publicKey() on the DataLiquidityPool contract. -/
  dlpPublicKey : Except Thrown String
  /-- getEncryptionParameters(). -/
  encParams : EncParams
  /-- Date.now().toString() at payload construction. -/
  nonce : String
  /-- fetch(url, body): the HTTP response, or a network rejection. -/
  fetch : String → ProofRequestBody → Except Thrown HttpResponse
  /-- Controller("DataLiquidityPoolProxy").address. -/
  dlpAddress : String

/-- An externally observable call performed by the workflow. -/
inductive Event where
  | contractWrite (fn : String)
  | receiptWait (hash : String)
  | contractRead (fn : String)
  | httpPost (url : String) (body : ProofRequestBody)
deriving Repr, DecidableEq

/-- Whether an event is the outbound HTTP POST to the executor. -/
def Event.isHttpPost : Event → Bool
  | .httpPost _ _ => true
  | _ => false

/-- Embedding of the helper getFileJobIds: one contract read; any failure is
caught and rewrapped as the Error "Failed to get job IDs for file". -/
def getFileJobIds (env : Env) (fileId : Nat) :
    Except Thrown (List Nat) × List Event :=
  match env.fileJobIds fileId with
  | .ok jobIds => (.ok jobIds, [.contractRead "fileJobIds"])
  | .error _ =>
      (.error (.errObj "Failed to get job IDs for file"), [.contractRead "fileJobIds"])

/-- Embedding of the try-block of getTeeDetails: reads jobs(jobId), checks
the record and its teeAddress, then reads tees(teeAddress) and checks the
record.  The two not-found conditions raise distinct internal errors. -/
def getTeeDetailsTry (env : Env) (jobId : Nat) :
    Except Thrown JobDetails × List Event :=
  match env.jobs jobId with
  | .error t => (.error t, [.contractRead "jobs"])
  | .ok none =>
      (.error (.errObj "Job not found or missing TEE address"), [.contractRead "jobs"])
  | .ok (some job) =>
      if job.teeAddress = "" then
        (.error (.errObj "Job not found or missing TEE address"), [.contractRead "jobs"])
      else
        match env.tees job.teeAddress with
        | .error t => (.error t, [.contractRead "jobs", .contractRead "tees"])
        | .ok none =>
            (.error (.errObj "TEE information not found"),
             [.contractRead "jobs", .contractRead "tees"])
        | .ok (some teeInfo) =>
            (.ok { teeUrl := teeInfo.url, teePublicKey := teeInfo.publicKey,
                   teeAddress := some job.teeAddress },
             [.contractRead "jobs", .contractRead "tees"])

/-- Embedding of getTeeDetails: the catch clause rewraps every failure of the
try-block as the single Error "Failed to get TEE details for job". -/
def getTeeDetails (env : Env) (jobId : Nat) :
    Except Thrown JobDetails × List Event :=
  match getTeeDetailsTry env jobId with
  | (.ok d, evs) => (.ok d, evs)
  | (.error _, evs) => (.error (.errObj "Failed to get TEE details for job"), evs)

/-- Embedding of getDlpPublicKey: a single uncaught contract read. -/
def getDlpPublicKey (env : Env) : Except Thrown String × List Event :=
  (env.dlpPublicKey, [.contractRead "publicKey"])

/-- Assembly of the ProofRequestBody (lines 183-209 of the hook): the fixed
base object, then exactly one of encrypted_encryption_key / encryption_key
depending on the truthiness of jobDetails.teePublicKey.  No encryption is
performed; the caller-supplied key is stored verbatim in either field. -/
def mkRequestBody (env : Env) (fileId : Nat) (encryptionKey : String)
    (latestJobId : Nat) (jobDetails : JobDetails) (dlpKey : String) :
    ProofRequestBody :=
  let base : ProofRequestBody :=
    { job_id := latestJobId
      file_id := fileId
      nonce := env.nonce
      proof_url := "https://github.com/vana-com/vana-satya-proof-template/releases/download/v24/gsc-my-proof-24.tar.gz"
      encryption_seed := encryptionKey
      user_email := "user@example.com"
      validate_permissions :=
        [{ address := env.dlpAddress
           public_key := dlpKey
           iv := env.encParams.ivHex
           ephemeral_key := env.encParams.ephemeralKeyHex }] }
  if jobDetails.teePublicKey = "" then
    { base with encryption_key := some encryptionKey }
  else
    { base with encrypted_encryption_key := some encryptionKey }

/-- Embedding of the try-block of requestContributionProof: wallet check,
contract write, receipt wait, job-id query, last-element selection, TEE
resolution, payload assembly and HTTP dispatch.  Returns the result and the
ordered list of external calls performed. -/
def requestContributionProofTry (env : Env) (fileId : Nat)
    (encryptionKey : String) : Except Thrown ProofResult × List Event :=
  match env.address with
  | none => (.error (.errObj "Wallet not connected"), [])
  | some _ =>
    match env.writeContract with
    | .error t => (.error t, [.contractWrite "requestContributionProof"])
    | .ok hash =>
      let evs1 := [Event.contractWrite "requestContributionProof"]
      match env.waitForReceipt hash with
      | .error t => (.error t, evs1 ++ [.receiptWait hash])
      | .ok receipt =>
        let evs2 := evs1 ++ [Event.receiptWait hash]
        match getFileJobIds env fileId with
        | (.error t, evs) => (.error t, evs2 ++ evs)
        | (.ok jobIds, evs) =>
          let evs3 := evs2 ++ evs
          if jobIds.isEmpty then
            (.error (.errObj "No jobs found for file"), evs3)
          else
            let latestJobId := jobIds.getLastD 0
            match getTeeDetails env latestJobId with
            | (.error t, evs) => (.error t, evs3 ++ evs)
            | (.ok jobDetails, evs) =>
              let evs4 := evs3 ++ evs
              match getDlpPublicKey env with
              | (.error t, evs) => (.error t, evs4 ++ evs)
              | (.ok dlpKey, evs) =>
                let evs5 := evs4 ++ evs
                let requestBody :=
                  mkRequestBody env fileId encryptionKey latestJobId jobDetails dlpKey
                let url := jobDetails.teeUrl ++ "/RunProof"
                match env.fetch url requestBody with
                | .error t => (.error t, evs5 ++ [.httpPost url requestBody])
                | .ok resp =>
                  let evs6 := evs5 ++ [Event.httpPost url requestBody]
                  if responseOk resp then
                    (.ok { fileId := fileId, jobId := latestJobId,
                           proofData := resp.body,
                           txHash := receipt.transactionHash }, evs6)
                  else
                    (.error (.errObj ("TEE request failed: " ++ stringifyJson resp.body)),
                     evs6)

/-- The hook state exposed through useState: the processing flag and the
error message. -/
structure HookState where
  isProcessing : Bool
  error : Option String
deriving Repr, DecidableEq

/-- One trace entry: an external call together with the hook state observable
at the moment the call happened. -/
structure Obs where
  event : Event
  procFlag : Bool
  errState : Option String
deriving Repr, DecidableEq

/-- Everything observable about one invocation: result (ok = return value,
error = the re-thrown value), the call trace, and the final hook state. -/
structure Outcome where
  result : Except Thrown ProofResult
  trace : List Obs
  final : HookState

/-- The message the catch clause records: err.message when the thrown value
is an Error, the generic fallback otherwise. -/
def thrownMessage : Thrown → String
  | .errObj m => m
  | .other => "Failed to process TEE proof"

/-- Embedding of requestContributionProof including its state effects:
setIsProcessing(true) and setError(null) on entry, the try-block, setError
and re-throw in catch, setIsProcessing(false) in finally.  The state never
changes inside the try-block, so every trace entry observes the post-entry
state. -/
def requestContributionProof (env : Env) (fileId : Nat)
    (encryptionKey : String) (s0 : HookState) : Outcome :=
  let s1 : HookState := { s0 with isProcessing := true, error := none }
  let run := requestContributionProofTry env fileId encryptionKey
  let trace := run.2.map fun e =>
    { event := e, procFlag := s1.isProcessing, errState := s1.error }
  match run.1 with
  | .ok r =>
      { result := .ok r, trace := trace,
        final := { s1 with isProcessing := false } }
  | .error t =>
      { result := .error t, trace := trace,
        final := { isProcessing := false, error := some (thrownMessage t) } }

/-! ## Concrete environments used by witnesses and counterexamples -/

/-- A fully successful concrete environment: wallet connected, all contract
calls succeed, two jobs [5, 2] (deliberately not numerically ordered), TEE
resolved, HTTP 200 with body obj [(ok, true)]. -/
def envHappy : Env :=
  { address := some "0xabc"
    writeContract := .ok "0xhash"
    waitForReceipt := fun _ => .ok { transactionHash := "0xhash" }
    fileJobIds := fun _ => .ok [5, 2]
    jobs := fun _ => .ok (some { teeAddress := "0xtee" })
    tees := fun _ => .ok (some { url := "https://tee.example", publicKey := "teepk" })
    dlpPublicKey := .ok "dlppk"
    encParams := { ivHex := "00ff", ephemeralKeyHex := "11ee" }
    nonce := "1700000000000"
    fetch := fun _ _ => .ok { status := 200, body := Json.obj [("ok", Json.bool true)] }
    dlpAddress := "0xdlp" }

/-- envHappy with the wallet disconnected. -/
def envNoWallet : Env := { envHappy with address := none }

/-- envHappy with an empty job list for every file. -/
def envEmptyJobs : Env := { envHappy with fileJobIds := fun _ => .ok [] }

/-- envHappy with the executor answering HTTP 500, body obj [(error, bad request)]. -/
def envHttp500 : Env :=
  { envHappy with
    fetch := fun _ _ =>
      .ok { status := 500, body := Json.obj [("error", Json.str "bad request")] } }

/-- envHappy with a missing (null) job record. -/
def envMissingJob : Env := { envHappy with jobs := fun _ => .ok none }

/-- envHappy with a missing (null) TEE record. -/
def envMissingTee : Env := { envHappy with tees := fun _ => .ok none }

/-- envHappy with the jobs contract read itself throwing a non-Error value. -/
def envJobsReadFails : Env := { envHappy with jobs := fun _ => .error .other }

/-- The hook state as a previous failed invocation would leave it. -/
def staleState : HookState := { isProcessing := false, error := some "stale error" }

/-- ASCII-lowercasing of a string, used to compare error messages with the
phrases quoted in the specification up to letter case. -/
def lowerStr (s : String) : String := String.mk (s.data.map Char.toLower)

/-- Boolean check: if the event is the HTTP POST, its body carries the given
job id; any other event passes. -/
def jobIdOfPost (target : Nat) : Event → Bool
  | .httpPost _ b => b.job_id == target
  | _ => true

/-! ## Claims -/

/-- C1: every ProofRequestBody built by the payload-assembly step carries
exactly one of encrypted_encryption_key / encryption_key — never both, never
neither — with encrypted_encryption_key chosen exactly when the resolved
executor public key is present (nonempty, i.e. truthy). -/
theorem payload_key_exclusivity (env : Env) (fileId : Nat) (encryptionKey : String)
    (latestJobId : Nat) (jobDetails : JobDetails) (dlpKey : String) :
    let b := mkRequestBody env fileId encryptionKey latestJobId jobDetails dlpKey
    if jobDetails.teePublicKey = "" then
      b.encrypted_encryption_key = none ∧ b.encryption_key = some encryptionKey
    else
      b.encrypted_encryption_key = some encryptionKey ∧ b.encryption_key = none := by
  by_cases h : jobDetails.teePublicKey = "" <;> simp [mkRequestBody, h]

/-- C4: when the resolved executor public key is present, the field
encrypted_encryption_key holds the caller-supplied encryptionKey verbatim
(no encryption is performed); when absent the field is not set at all. -/
theorem encrypted_key_is_verbatim (env : Env) (fileId : Nat)
    (encryptionKey : String) (latestJobId : Nat) (jobDetails : JobDetails)
    (dlpKey : String) :
    (mkRequestBody env fileId encryptionKey latestJobId jobDetails dlpKey).encrypted_encryption_key
      = if jobDetails.teePublicKey = "" then none else some encryptionKey := by
  by_cases h : jobDetails.teePublicKey = "" <;> simp [mkRequestBody, h]

/-- C7: with no connected wallet address the call fails at once with the
Error message Wallet not connected, records that message in the error state,
and performs no external call at all: the trace is empty, so in particular
no contract write, no contract read and no HTTP call happened. -/
theorem wallet_guard_fails_first (env : Env) (fileId : Nat) (key : String)
    (s0 : HookState) (h : env.address = none) :
    let out := requestContributionProof env fileId key s0
    out.result = .error (.errObj "Wallet not connected") ∧
    out.trace = [] ∧
    out.final.error = some "Wallet not connected" := by
  simp [requestContributionProof, requestContributionProofTry, h, thrownMessage]

/-- C7 witness: the concrete disconnected environment hits the guard. -/
theorem wallet_guard_fails_first_witness :
    let out := requestContributionProof envNoWallet 7 "key" staleState
    out.result = .error (.errObj "Wallet not connected") ∧
    out.trace = [] ∧
    out.final.error = some "Wallet not connected" :=
  wallet_guard_fails_first envNoWallet 7 "key" staleState rfl

/-- C9: for every environment, arguments and prior hook state, the
processing flag is true at every externally observable step of the call and
false again once the call has completed, on the success path and on every
failure path alike (the finally clause clears it unconditionally). -/
theorem processing_flag_lifecycle (env : Env) (fileId : Nat) (key : String)
    (s0 : HookState) :
    let out := requestContributionProof env fileId key s0
    (out.trace.all fun o => o.procFlag) = true ∧
    out.final.isProcessing = false := by
  rcases hr : requestContributionProofTry env fileId key with ⟨res, evs⟩
  rcases res with t | r <;>
    simp [requestContributionProof, hr, List.all_map, Function.comp]

/-- C10: for every prior hook state (in particular one still holding the
error message of a previous failed invocation) the error state observed at
every step of the call is none, i.e. the reset at entry precedes every step;
the final error state is none on success, the thrown Error message on
failure, and the generic message Failed to process TEE proof when the thrown
value is not an Error; and the result is exactly the value the try-block
produced, so a failure is re-thrown to the caller unmodified. -/
theorem error_state_reset_and_record (env : Env) (fileId : Nat) (key : String)
    (s0 : HookState) :
    let out := requestContributionProof env fileId key s0
    (out.trace.all fun o => o.errState == none) = true ∧
    (out.final.error = match out.result with
      | .ok _ => none
      | .error t => some (thrownMessage t)) ∧
    out.result = (requestContributionProofTry env fileId key).1 := by
  rcases hr : requestContributionProofTry env fileId key with ⟨res, evs⟩
  rcases res with t | r <;>
    simp [requestContributionProof, hr, List.all_map, Function.comp]

/-- The job_id of the assembled body does not depend on the key branch. -/
theorem mkRequestBody_job_id (env : Env) (fileId : Nat) (key : String)
    (latestJobId : Nat) (jobDetails : JobDetails) (dlpKey : String) :
    (mkRequestBody env fileId key latestJobId jobDetails dlpKey).job_id = latestJobId := by
  by_cases h : jobDetails.teePublicKey = "" <;> simp [mkRequestBody, h]

/-- C2: whenever the job-id query returns a non-empty sequence ids and the
remaining pipeline succeeds, the workflow targets the LAST element of ids
(ids.getLastD 0, mirroring jobIds[jobIds.length - 1]): it is the jobId of
the returned result and the job_id of the POSTed payload, regardless of the
numeric ordering of ids. -/
theorem latest_job_is_last_element (env : Env) (fileId : Nat) (key : String)
    (s0 : HookState) (a txh : String) (receipt : Receipt) (ids : List Nat)
    (job : JobData) (tee : TeeData) (dlpk : String) (resp : HttpResponse)
    (ha : env.address = some a)
    (hw : env.writeContract = .ok txh)
    (hr : env.waitForReceipt txh = .ok receipt)
    (hj : env.fileJobIds fileId = .ok ids)
    (hne : ids.isEmpty = false)
    (hjob : env.jobs (ids.getLastD 0) = .ok (some job))
    (haddr : ¬ job.teeAddress = "")
    (htee : env.tees job.teeAddress = .ok (some tee))
    (hd : env.dlpPublicKey = .ok dlpk)
    (hf : ∀ u b, env.fetch u b = .ok resp)
    (hok : responseOk resp = true) :
    let out := requestContributionProof env fileId key s0
    out.result = .ok { fileId := fileId, jobId := ids.getLastD 0,
                       proofData := resp.body,
                       txHash := receipt.transactionHash } ∧
    (out.trace.all fun o => jobIdOfPost (ids.getLastD 0) o.event) = true := by
  have hjob' : env.jobs (ids.getLast?.getD 0) = .ok (some job) := by
    simpa using hjob
  simp [requestContributionProof, requestContributionProofTry, getFileJobIds,
    getTeeDetails, getTeeDetailsTry, getDlpPublicKey, ha, hw, hr, hj, hne,
    hjob', haddr, htee, hd, hf, hok, jobIdOfPost, mkRequestBody_job_id]

/-- C2 witness: with the deliberately unordered job list [5, 2] the selected
job id is 2 (the last element, not the numeric maximum 5). -/
theorem latest_job_is_last_element_witness :
    let out := requestContributionProof envHappy 7 "key" staleState
    out.result = .ok { fileId := 7, jobId := 2,
                       proofData := Json.obj [("ok", Json.bool true)],
                       txHash := "0xhash" } ∧
    (out.trace.all fun o => jobIdOfPost 2 o.event) = true :=
  latest_job_is_last_element envHappy 7 "key" staleState "0xabc" "0xhash"
    { transactionHash := "0xhash" } [5, 2] { teeAddress := "0xtee" }
    { url := "https://tee.example", publicKey := "teepk" } "dlppk"
    { status := 200, body := Json.obj [("ok", Json.bool true)] }
    rfl rfl rfl rfl rfl rfl (by decide) rfl rfl (fun _ _ => rfl) rfl

/-- C3: when the job-id query returns the empty sequence, the workflow fails
with the Error message No jobs found for file (which contains the phrase
no jobs found up to letter case), records that message in the error state,
and the trace contains no HTTP call to the executor. -/
theorem empty_jobs_fails_without_http (env : Env) (fileId : Nat) (key : String)
    (s0 : HookState) (a txh : String) (receipt : Receipt)
    (ha : env.address = some a)
    (hw : env.writeContract = .ok txh)
    (hr : env.waitForReceipt txh = .ok receipt)
    (hj : env.fileJobIds fileId = .ok []) :
    let out := requestContributionProof env fileId key s0
    out.result = .error (.errObj "No jobs found for file") ∧
    out.final.error = some "No jobs found for file" ∧
    (out.trace.all fun o => !o.event.isHttpPost) = true ∧
    containsSub (lowerStr "No jobs found for file") "no jobs found" := by
  refine ⟨?_, ?_, ?_, ⟨"", " for file", by decide⟩⟩ <;>
    simp [requestContributionProof, requestContributionProofTry, getFileJobIds,
      ha, hw, hr, hj, thrownMessage, Event.isHttpPost]

/-- C3 witness: the concrete empty-job environment. -/
theorem empty_jobs_fails_without_http_witness :
    let out := requestContributionProof envEmptyJobs 7 "key" staleState
    out.result = .error (.errObj "No jobs found for file") ∧
    out.final.error = some "No jobs found for file" ∧
    (out.trace.all fun o => !o.event.isHttpPost) = true ∧
    containsSub (lowerStr "No jobs found for file") "no jobs found" :=
  empty_jobs_fails_without_http envEmptyJobs 7 "key" staleState "0xabc"
    "0xhash" { transactionHash := "0xhash" } rfl rfl rfl rfl

/-- C5: when the executor responds with a non-2xx status, the workflow
throws an Error whose message is TEE request failed: followed by the
JSON-serialized response body — in particular the message contains the
serialization of the body — and the same message is recorded in the error
state. -/
theorem non_ok_response_embeds_body (env : Env) (fileId : Nat) (key : String)
    (s0 : HookState) (a txh : String) (receipt : Receipt) (ids : List Nat)
    (job : JobData) (tee : TeeData) (dlpk : String) (resp : HttpResponse)
    (ha : env.address = some a)
    (hw : env.writeContract = .ok txh)
    (hr : env.waitForReceipt txh = .ok receipt)
    (hj : env.fileJobIds fileId = .ok ids)
    (hne : ids.isEmpty = false)
    (hjob : env.jobs (ids.getLastD 0) = .ok (some job))
    (haddr : ¬ job.teeAddress = "")
    (htee : env.tees job.teeAddress = .ok (some tee))
    (hd : env.dlpPublicKey = .ok dlpk)
    (hf : ∀ u b, env.fetch u b = .ok resp)
    (hok : responseOk resp = false) :
    let out := requestContributionProof env fileId key s0
    out.result = .error (.errObj ("TEE request failed: " ++ stringifyJson resp.body)) ∧
    out.final.error = some ("TEE request failed: " ++ stringifyJson resp.body) ∧
    containsSub ("TEE request failed: " ++ stringifyJson resp.body)
      (stringifyJson resp.body) := by
  have hjob' : env.jobs (ids.getLast?.getD 0) = .ok (some job) := by
    simpa using hjob
  refine ⟨?_, ?_, ⟨"TEE request failed: ", "", by simp⟩⟩ <;>
    simp [requestContributionProof, requestContributionProofTry, getFileJobIds,
      getTeeDetails, getTeeDetailsTry, getDlpPublicKey, ha, hw, hr, hj, hne,
      hjob', haddr, htee, hd, hf, hok, thrownMessage]

/-- C5 witness: HTTP 500 with body obj [(error, bad request)] yields the
Error message containing that body serialized. -/
theorem non_ok_response_embeds_body_witness :
    let out := requestContributionProof envHttp500 7 "key" staleState
    out.result = .error (.errObj ("TEE request failed: "
      ++ stringifyJson (Json.obj [("error", Json.str "bad request")]))) ∧
    out.final.error = some ("TEE request failed: "
      ++ stringifyJson (Json.obj [("error", Json.str "bad request")])) ∧
    containsSub ("TEE request failed: "
        ++ stringifyJson (Json.obj [("error", Json.str "bad request")]))
      (stringifyJson (Json.obj [("error", Json.str "bad request")])) :=
  non_ok_response_embeds_body envHttp500 7 "key" staleState "0xabc" "0xhash"
    { transactionHash := "0xhash" } [5, 2] { teeAddress := "0xtee" }
    { url := "https://tee.example", publicKey := "teepk" } "dlppk"
    { status := 500, body := Json.obj [("error", Json.str "bad request")] }
    rfl rfl rfl rfl rfl rfl (by decide) rfl rfl (fun _ _ => rfl) rfl

/-- C6: when the executor responds with a 2xx status, the workflow returns
the parsed response body unmodified as proofData and the confirmed
transaction hash from the receipt as txHash. -/
theorem ok_response_returned_verbatim (env : Env) (fileId : Nat) (key : String)
    (s0 : HookState) (a txh : String) (receipt : Receipt) (ids : List Nat)
    (job : JobData) (tee : TeeData) (dlpk : String) (resp : HttpResponse)
    (ha : env.address = some a)
    (hw : env.writeContract = .ok txh)
    (hr : env.waitForReceipt txh = .ok receipt)
    (hj : env.fileJobIds fileId = .ok ids)
    (hne : ids.isEmpty = false)
    (hjob : env.jobs (ids.getLastD 0) = .ok (some job))
    (haddr : ¬ job.teeAddress = "")
    (htee : env.tees job.teeAddress = .ok (some tee))
    (hd : env.dlpPublicKey = .ok dlpk)
    (hf : ∀ u b, env.fetch u b = .ok resp)
    (hok : responseOk resp = true) :
    (requestContributionProof env fileId key s0).result
      = .ok { fileId := fileId, jobId := ids.getLastD 0,
              proofData := resp.body, txHash := receipt.transactionHash } := by
  have hjob' : env.jobs (ids.getLast?.getD 0) = .ok (some job) := by
    simpa using hjob
  simp [requestContributionProof, requestContributionProofTry, getFileJobIds,
    getTeeDetails, getTeeDetailsTry, getDlpPublicKey, ha, hw, hr, hj, hne,
    hjob', haddr, htee, hd, hf, hok]

/-- C6 witness: HTTP 200 with body obj [(ok, true)] is returned verbatim as
proofData, with txHash the receipt hash. -/
theorem ok_response_returned_verbatim_witness :
    (requestContributionProof envHappy 7 "key" staleState).result
      = .ok { fileId := 7, jobId := 2,
              proofData := Json.obj [("ok", Json.bool true)],
              txHash := "0xhash" } :=
  ok_response_returned_verbatim envHappy 7 "key" staleState "0xabc" "0xhash"
    { transactionHash := "0xhash" } [5, 2] { teeAddress := "0xtee" }
    { url := "https://tee.example", publicKey := "teepk" } "dlppk"
    { status := 200, body := Json.obj [("ok", Json.bool true)] }
    rfl rfl rfl rfl rfl rfl (by decide) rfl rfl (fun _ _ => rfl) rfl

/-- C8 counterexample: a missing job record, a missing executor record and a
failing jobs read all surface the SAME error message Failed to get TEE
details for job to the caller, so the surfaced messages are not distinct and
the claimed distinct messages (job not found versus TEE information not
found) never reach the caller. -/
theorem tee_lookup_messages_not_distinct :
    (requestContributionProof envMissingJob 7 "key" staleState).final.error
      = some "Failed to get TEE details for job" ∧
    (requestContributionProof envMissingTee 7 "key" staleState).final.error
      = some "Failed to get TEE details for job" ∧
    (requestContributionProof envJobsReadFails 7 "key" staleState).final.error
      = some "Failed to get TEE details for job" ∧
    (requestContributionProof envMissingJob 7 "key" staleState).result
      = .error (.errObj "Failed to get TEE details for job") ∧
    (requestContributionProof envMissingTee 7 "key" staleState).result
      = .error (.errObj "Failed to get TEE details for job") :=
  ⟨rfl, rfl, rfl, rfl, rfl⟩

/-- C8 amended: inside the try-block of getTeeDetails a missing (or
executor-address-less) job record and a missing executor record do raise
distinct internal errors (Job not found or missing TEE address versus TEE
information not found), but the catch clause rewraps every failure of the
try-block — those two included, and a thrown chain read alike — into the
single surfaced message Failed to get TEE details for job, so the caller
observes the same message in all three cases. -/
theorem tee_lookup_internal_distinct_surfaced_uniform (env : Env) (jobId : Nat) :
    (env.jobs jobId = .ok none →
      (getTeeDetailsTry env jobId).1
        = .error (.errObj "Job not found or missing TEE address")) ∧
    (∀ job : JobData, env.jobs jobId = .ok (some job) → ¬ job.teeAddress = "" →
      env.tees job.teeAddress = .ok none →
      (getTeeDetailsTry env jobId).1
        = .error (.errObj "TEE information not found")) ∧
    (∀ t : Thrown, (getTeeDetailsTry env jobId).1 = .error t →
      (getTeeDetails env jobId).1
        = .error (.errObj "Failed to get TEE details for job")) := by
  refine ⟨?_, ?_, ?_⟩
  · intro h; simp [getTeeDetailsTry, h]
  · intro job h hne h2; simp [getTeeDetailsTry, h, hne, h2]
  · intro t h
    rcases he : getTeeDetailsTry env jobId with ⟨res, evs⟩
    rw [he] at h
    simp only at h
    subst h
    simp [getTeeDetails, he]

/-- C8 amended witness: the concrete environments realize the two distinct
internal messages and the uniform surfaced message. -/
theorem tee_lookup_internal_distinct_surfaced_uniform_witness :
    (getTeeDetailsTry envMissingJob 2).1
      = .error (.errObj "Job not found or missing TEE address") ∧
    (getTeeDetailsTry envMissingTee 2).1
      = .error (.errObj "TEE information not found") ∧
    (getTeeDetails envMissingTee 2).1
      = .error (.errObj "Failed to get TEE details for job") := by
  refine ⟨(tee_lookup_internal_distinct_surfaced_uniform envMissingJob 2).1 rfl,
    (tee_lookup_internal_distinct_surfaced_uniform envMissingTee 2).2.1
      { teeAddress := "0xtee" } rfl (by decide) rfl,
    (tee_lookup_internal_distinct_surfaced_uniform envMissingTee 2).2.2
      (.errObj "TEE information not found") ?_⟩
  exact (tee_lookup_internal_distinct_surfaced_uniform envMissingTee 2).2.1
    { teeAddress := "0xtee" } rfl (by decide) rfl
